import Mathlib

/-!
Verification of the OHLCV bar builder (`src/data_item.rs`).

The Rust code stores `f64` values and only ever *compares* them with `<=`
and `>=` (never any arithmetic), so we embed the doubles exactly as an
inductive type with finite values (rationals), the two infinities, and NaN,
together with the IEEE-754 comparison semantics: a comparison involving NaN
is `false`; `-inf` is below everything else; `+inf` is above everything
else; finite values compare as rationals.  (`-0.0` compares equal to `0.0`
in IEEE-754, so both map to the single rational zero.)
-/

/-- Embedding of Rust `f64` for a program that only compares and stores. -/
inductive F64 where
  | finite (q : ℚ)
  | inf
  | negInf
  | nan
deriving DecidableEq, Repr

/-- IEEE-754 `<=` on the embedded doubles (Rust `a <= b`). -/
def F64.le : F64 → F64 → Bool
  | .nan, _ => false
  | _, .nan => false
  | .negInf, _ => true
  | _, .negInf => false
  | _, .inf => true
  | .inf, _ => false
  | .finite a, .finite b => decide (a ≤ b)

/-- IEEE-754 `>=` on the embedded doubles (Rust `a >= b`).  For every pair
of doubles `a >= b` holds exactly when `b <= a` (both are false as soon as
one operand is NaN). -/
def F64.ge (a b : F64) : Bool := F64.le b a

/-- The validated bar: `struct DataItem` (five `f64` fields, private,
readable through the `Open`/`High`/`Low`/`Close`/`Volume` trait impls,
which simply return the field). -/
structure DataItem where
  open_ : F64
  high : F64
  low : F64
  close : F64
  volume : F64
deriving DecidableEq, Repr

/-- The two error kinds `build` can produce (`ErrorKind::DataItemIncomplete`,
`ErrorKind::DataItemInvalid`). -/
inductive ErrorKind where
  | DataItemIncomplete
  | DataItemInvalid
deriving DecidableEq, Repr

/-- The staging structure: `struct DataItemBuilder` with five optional
slots. -/
structure DataItemBuilder where
  open_ : Option F64
  high : Option F64
  low : Option F64
  close : Option F64
  volume : Option F64
deriving DecidableEq, Repr

/-- `DataItemBuilder::new`: all five slots unset. -/
def DataItemBuilder.new : DataItemBuilder :=
  ⟨none, none, none, none, none⟩

/-- Setter `DataItemBuilder::open`: store `Some(val)` into the open slot. -/
def DataItemBuilder.setOpen (b : DataItemBuilder) (val : F64) : DataItemBuilder :=
  { b with open_ := some val }

/-- Setter `DataItemBuilder::high`. -/
def DataItemBuilder.setHigh (b : DataItemBuilder) (val : F64) : DataItemBuilder :=
  { b with high := some val }

/-- Setter `DataItemBuilder::low`. -/
def DataItemBuilder.setLow (b : DataItemBuilder) (val : F64) : DataItemBuilder :=
  { b with low := some val }

/-- Setter `DataItemBuilder::close`. -/
def DataItemBuilder.setClose (b : DataItemBuilder) (val : F64) : DataItemBuilder :=
  { b with close := some val }

/-- Setter `DataItemBuilder::volume`. -/
def DataItemBuilder.setVolume (b : DataItemBuilder) (val : F64) : DataItemBuilder :=
  { b with volume := some val }

/-- The consistency guard of `build`, exactly the Rust condition
`low <= open && low <= close && low <= high && high >= open &&
 high >= close && volume >= 0.0 && low >= 0.0`. -/
def validCheck (o h l c v : F64) : Bool :=
  l.le o && l.le c && l.le h && h.ge o && h.ge c &&
    v.ge (.finite 0) && l.ge (.finite 0)

/-- `DataItemBuilder::build`: completeness first (all five slots `Some`),
then the consistency guard; on success the `DataItem` is assembled from the
five unwrapped values. -/
def DataItemBuilder.build (b : DataItemBuilder) : Except ErrorKind DataItem :=
  match b.open_, b.high, b.low, b.close, b.volume with
  | some o, some h, some l, some c, some v =>
    if validCheck o h l c v then
      Except.ok ⟨o, h, l, c, v⟩
    else
      Except.error ErrorKind.DataItemInvalid
  | _, _, _, _, _ => Except.error ErrorKind.DataItemIncomplete

deriving instance DecidableEq for Except

example :
    (DataItemBuilder.new.setOpen (.finite 20) |>.setHigh (.finite 25)
      |>.setLow (.finite 15) |>.setClose (.finite 21)
      |>.setVolume (.finite 7500)).build =
      Except.ok ⟨.finite 20, .finite 25, .finite 15, .finite 21, .finite 7500⟩ := by
  decide

example :
    (DataItemBuilder.new.setOpen (.finite 20) |>.setHigh (.finite 25)
      |>.setLow (.finite 15) |>.setClose (.finite 21)
      |>.setVolume (.finite (-1))).build =
      Except.error ErrorKind.DataItemInvalid := by
  decide

example :
    (DataItemBuilder.new.setOpen (.finite 20) |>.setHigh (.finite 25)
      |>.setLow (.finite 15) |>.setClose (.finite 21)).build =
      Except.error ErrorKind.DataItemIncomplete := by
  decide

/-! ### Helper lemmas on the comparison semantics -/

@[simp] theorem F64.nan_le (y : F64) : F64.le .nan y = false := by
  cases y <;> rfl

@[simp] theorem F64.le_nan (x : F64) : F64.le x .nan = false := by
  cases x <;> rfl

@[simp] theorem F64.nan_ge (y : F64) : F64.ge .nan y = false := F64.le_nan y

@[simp] theorem F64.ge_nan (x : F64) : F64.ge x .nan = false := F64.nan_le x

/-- Unfolding `build` on a fully populated builder. -/
theorem build_full (o h l c v : F64) :
    (DataItemBuilder.mk (some o) (some h) (some l) (some c) (some v)).build =
      if validCheck o h l c v then Except.ok (DataItem.mk o h l c v)
      else Except.error ErrorKind.DataItemInvalid := rfl

/-! ### Claim theorems -/

/-- C1: on a fully populated builder, `build()` succeeds if and only if the
conjunction low≤open ∧ low≤close ∧ low≤high ∧ high≥open ∧ high≥close ∧
volume≥0 ∧ low≥0 holds over the stored values, and whenever any of these
relations fails, `build()` returns the `DataItemInvalid` error. -/
theorem build_succeeds_iff_relations (o h l c v : F64) :
    ((∃ d, (DataItemBuilder.mk (some o) (some h) (some l) (some c)
        (some v)).build = Except.ok d) ↔
      (l.le o = true ∧ l.le c = true ∧ l.le h = true ∧ h.ge o = true ∧
        h.ge c = true ∧ v.ge (.finite 0) = true ∧ l.ge (.finite 0) = true)) ∧
    (¬ (l.le o = true ∧ l.le c = true ∧ l.le h = true ∧ h.ge o = true ∧
        h.ge c = true ∧ v.ge (.finite 0) = true ∧ l.ge (.finite 0) = true) →
      (DataItemBuilder.mk (some o) (some h) (some l) (some c)
        (some v)).build = Except.error ErrorKind.DataItemInvalid) := by
  constructor
  · rw [build_full]
    constructor
    · rintro ⟨d, hd⟩
      by_cases hv : validCheck o h l c v
      · simpa [validCheck, Bool.and_eq_true, and_assoc] using hv
      · simp [hv] at hd
    · intro hrel
      refine ⟨DataItem.mk o h l c v, ?_⟩
      have hv : validCheck o h l c v = true := by
        simpa [validCheck, Bool.and_eq_true, and_assoc] using hrel
      simp [hv]
  · intro hrel
    rw [build_full]
    have hv : validCheck o h l c v = false := by
      by_contra hne
      exact hrel (by simpa [validCheck, Bool.and_eq_true, and_assoc] using
        eq_true_of_ne_false hne)
    simp [hv]

/-- Witness for C1 at the concrete invalid input
(open=20, high=25, low=15, close=21, volume=-1): the negative volume
violates volume≥0, and `build()` returns `DataItemInvalid`. -/
theorem build_succeeds_iff_relations_witness :
    (DataItemBuilder.mk (some (.finite 20)) (some (.finite 25))
      (some (.finite 15)) (some (.finite 21)) (some (.finite (-1)))).build =
      Except.error ErrorKind.DataItemInvalid :=
  (build_succeeds_iff_relations (.finite 20) (.finite 25) (.finite 15)
    (.finite 21) (.finite (-1))).2 (by decide)

/-- C2: if at least one of the five slots is unset, `build()` fails with
`DataItemIncomplete`, whatever the other slots hold — completeness is
checked before consistency. -/
theorem build_incomplete (b : DataItemBuilder)
    (h : b.open_ = none ∨ b.high = none ∨ b.low = none ∨ b.close = none ∨
      b.volume = none) :
    b.build = Except.error ErrorKind.DataItemIncomplete := by
  obtain ⟨o, hi, lo, cl, vo⟩ := b
  cases o <;> cases hi <;> cases lo <;> cases cl <;> cases vo <;>
    simp_all [DataItemBuilder.build]

/-- Witness for C2: open/high/low/close set to values that would also be
inconsistent (high < low), volume unset — the error is still
`DataItemIncomplete`. -/
theorem build_incomplete_witness :
    (DataItemBuilder.mk (some (.finite 20)) (some (.finite 15))
      (some (.finite 25)) (some (.finite 21)) none).build =
      Except.error ErrorKind.DataItemIncomplete :=
  build_incomplete
    (DataItemBuilder.mk (some (.finite 20)) (some (.finite 15))
      (some (.finite 25)) (some (.finite 21)) none)
    (by simp)

/-- C3: every `DataItem` produced by a successful `build()` satisfies the
seven relations low≤open, low≤close, low≤high, high≥open, high≥close,
volume≥0, low≥0.  In the embedding — as in the Rust source, where
`DataItem` has no mutating method and the accessors return the field by
value — the fields are fixed at construction, so the relations hold for the
value's whole lifetime and repeated accessor reads agree. -/
theorem built_item_invariant (b : DataItemBuilder) (d : DataItem)
    (h : b.build = Except.ok d) :
    d.low.le d.open_ = true ∧ d.low.le d.close = true ∧
      d.low.le d.high = true ∧ d.high.ge d.open_ = true ∧
      d.high.ge d.close = true ∧ d.volume.ge (.finite 0) = true ∧
      d.low.ge (.finite 0) = true := by
  obtain ⟨o, hi, lo, cl, vo⟩ := b
  cases o <;> cases hi <;> cases lo <;> cases cl <;> cases vo <;>
    simp only [DataItemBuilder.build] at h
  all_goals
    first
    | exact absurd h (by simp)
    | (rename_i o h' l c v
       by_cases hv : validCheck o h' l c v
       · simp only [hv, if_true] at h
         cases h
         simpa [validCheck, Bool.and_eq_true, and_assoc] using hv
       · simp [hv] at h)

/-- Witness for C3 at the bar (open=20, high=25, low=15, close=21,
volume=7500), whose build succeeds. -/
theorem built_item_invariant_witness :
    (DataItem.mk (.finite 20) (.finite 25) (.finite 15) (.finite 21)
        (.finite 7500)).low.le
      (DataItem.mk (.finite 20) (.finite 25) (.finite 15) (.finite 21)
        (.finite 7500)).open_ = true ∧
    (DataItem.mk (.finite 20) (.finite 25) (.finite 15) (.finite 21)
        (.finite 7500)).low.le
      (DataItem.mk (.finite 20) (.finite 25) (.finite 15) (.finite 21)
        (.finite 7500)).close = true ∧
    (DataItem.mk (.finite 20) (.finite 25) (.finite 15) (.finite 21)
        (.finite 7500)).low.le
      (DataItem.mk (.finite 20) (.finite 25) (.finite 15) (.finite 21)
        (.finite 7500)).high = true ∧
    (DataItem.mk (.finite 20) (.finite 25) (.finite 15) (.finite 21)
        (.finite 7500)).high.ge
      (DataItem.mk (.finite 20) (.finite 25) (.finite 15) (.finite 21)
        (.finite 7500)).open_ = true ∧
    (DataItem.mk (.finite 20) (.finite 25) (.finite 15) (.finite 21)
        (.finite 7500)).high.ge
      (DataItem.mk (.finite 20) (.finite 25) (.finite 15) (.finite 21)
        (.finite 7500)).close = true ∧
    (DataItem.mk (.finite 20) (.finite 25) (.finite 15) (.finite 21)
        (.finite 7500)).volume.ge (.finite 0) = true ∧
    (DataItem.mk (.finite 20) (.finite 25) (.finite 15) (.finite 21)
        (.finite 7500)).low.ge (.finite 0) = true :=
  built_item_invariant
    (DataItemBuilder.mk (some (.finite 20)) (some (.finite 25))
      (some (.finite 15)) (some (.finite 21)) (some (.finite 7500)))
    (DataItem.mk (.finite 20) (.finite 25) (.finite 15) (.finite 21)
      (.finite 7500))
    (by decide)

/-- C4: whenever `build()` succeeds on a fully populated builder, the
accessors of the returned `DataItem` yield exactly the values stored in the
corresponding builder slots; the accessors are the total field projections
and cannot fail. -/
theorem built_item_accessors (o h l c v : F64) (d : DataItem)
    (hb : (DataItemBuilder.mk (some o) (some h) (some l) (some c)
      (some v)).build = Except.ok d) :
    d.open_ = o ∧ d.high = h ∧ d.low = l ∧ d.close = c ∧ d.volume = v := by
  rw [build_full] at hb
  by_cases hv : validCheck o h l c v
  · simp only [hv, if_true] at hb
    cases hb
    exact ⟨rfl, rfl, rfl, rfl, rfl⟩
  · simp [hv] at hb

/-- Witness for C4 at the spec's concrete example open=20, high=25, low=15,
close=21, volume=7500. -/
theorem built_item_accessors_witness :
    (DataItem.mk (.finite 20) (.finite 25) (.finite 15) (.finite 21)
        (.finite 7500)).open_ = .finite 20 ∧
    (DataItem.mk (.finite 20) (.finite 25) (.finite 15) (.finite 21)
        (.finite 7500)).high = .finite 25 ∧
    (DataItem.mk (.finite 20) (.finite 25) (.finite 15) (.finite 21)
        (.finite 7500)).low = .finite 15 ∧
    (DataItem.mk (.finite 20) (.finite 25) (.finite 15) (.finite 21)
        (.finite 7500)).close = .finite 21 ∧
    (DataItem.mk (.finite 20) (.finite 25) (.finite 15) (.finite 21)
        (.finite 7500)).volume = .finite 7500 :=
  built_item_accessors (.finite 20) (.finite 25) (.finite 15) (.finite 21)
    (.finite 7500)
    (DataItem.mk (.finite 20) (.finite 25) (.finite 15) (.finite 21)
      (.finite 7500))
    (by decide)

/-- C6: for each of the five setters, calling it twice leaves the builder in
the same state as calling it once with the second value: only the most
recent value per slot is in effect. -/
theorem setter_overwrite (b : DataItemBuilder) (v1 v2 : F64) :
    (b.setOpen v1).setOpen v2 = b.setOpen v2 ∧
    (b.setHigh v1).setHigh v2 = b.setHigh v2 ∧
    (b.setLow v1).setLow v2 = b.setLow v2 ∧
    (b.setClose v1).setClose v2 = b.setClose v2 ∧
    (b.setVolume v1).setVolume v2 = b.setVolume v2 := by
  obtain ⟨o, hi, lo, cl, vo⟩ := b
  exact ⟨rfl, rfl, rfl, rfl, rfl⟩

/-- C7: a fully populated builder with at least one NaN field fails with
`DataItemInvalid` — each field occurs in at least one required relation,
and any comparison with a NaN operand is false. -/
theorem build_nan_invalid (o h l c v : F64)
    (hn : o = .nan ∨ h = .nan ∨ l = .nan ∨ c = .nan ∨ v = .nan) :
    (DataItemBuilder.mk (some o) (some h) (some l) (some c) (some v)).build =
      Except.error ErrorKind.DataItemInvalid := by
  rw [build_full]
  have hv : validCheck o h l c v = false := by
    rcases hn with rfl | rfl | rfl | rfl | rfl <;> simp [validCheck]
  simp [hv]

/-- Witness for C7: open = NaN, all other fields ordinary finite values. -/
theorem build_nan_invalid_witness :
    (DataItemBuilder.mk (some .nan) (some (.finite 25)) (some (.finite 15))
      (some (.finite 21)) (some (.finite 7500))).build =
      Except.error ErrorKind.DataItemInvalid :=
  build_nan_invalid .nan (.finite 25) (.finite 15) (.finite 21)
    (.finite 7500) (Or.inl rfl)

/-- C8: the degenerate all-zero bar builds successfully, and for every
positive rational `p` the flat bar with all five fields equal to `p`
builds successfully — every comparison in the guard is non-strict. -/
theorem build_flat_bars :
    (DataItemBuilder.mk (some (.finite 0)) (some (.finite 0))
      (some (.finite 0)) (some (.finite 0)) (some (.finite 0))).build =
      Except.ok (DataItem.mk (.finite 0) (.finite 0) (.finite 0) (.finite 0)
        (.finite 0)) ∧
    ∀ p : ℚ, 0 < p →
      (DataItemBuilder.mk (some (.finite p)) (some (.finite p))
        (some (.finite p)) (some (.finite p)) (some (.finite p))).build =
        Except.ok (DataItem.mk (.finite p) (.finite p) (.finite p)
          (.finite p) (.finite p)) := by
  refine ⟨by decide, fun p hp => ?_⟩
  rw [build_full]
  have hv : validCheck (.finite p) (.finite p) (.finite p) (.finite p)
      (.finite p) = true := by
    simp [validCheck, F64.le, F64.ge, hp.le]
  simp [hv]

/-- Witness for C8's universally quantified part at p = 1. -/
theorem build_flat_bars_witness :
    (0 : ℚ) < 1 ∧
    (DataItemBuilder.mk (some (.finite 1)) (some (.finite 1))
      (some (.finite 1)) (some (.finite 1)) (some (.finite 1))).build =
      Except.ok (DataItem.mk (.finite 1) (.finite 1) (.finite 1) (.finite 1)
        (.finite 1)) :=
  ⟨by norm_num, build_flat_bars.2 1 (by norm_num)⟩

/-- C9: each setter writes `some v` into its own slot and leaves the other
four slots exactly unchanged; setters are total functions on the builder
value and touch nothing else. -/
theorem setter_frame (b : DataItemBuilder) (v : F64) :
    ((b.setOpen v).open_ = some v ∧ (b.setOpen v).high = b.high ∧
      (b.setOpen v).low = b.low ∧ (b.setOpen v).close = b.close ∧
      (b.setOpen v).volume = b.volume) ∧
    ((b.setHigh v).high = some v ∧ (b.setHigh v).open_ = b.open_ ∧
      (b.setHigh v).low = b.low ∧ (b.setHigh v).close = b.close ∧
      (b.setHigh v).volume = b.volume) ∧
    ((b.setLow v).low = some v ∧ (b.setLow v).open_ = b.open_ ∧
      (b.setLow v).high = b.high ∧ (b.setLow v).close = b.close ∧
      (b.setLow v).volume = b.volume) ∧
    ((b.setClose v).close = some v ∧ (b.setClose v).open_ = b.open_ ∧
      (b.setClose v).high = b.high ∧ (b.setClose v).low = b.low ∧
      (b.setClose v).volume = b.volume) ∧
    ((b.setVolume v).volume = some v ∧ (b.setVolume v).open_ = b.open_ ∧
      (b.setVolume v).high = b.high ∧ (b.setVolume v).low = b.low ∧
      (b.setVolume v).close = b.close) := by
  obtain ⟨o, hi, lo, cl, vo⟩ := b
  exact ⟨⟨rfl, rfl, rfl, rfl, rfl⟩, ⟨rfl, rfl, rfl, rfl, rfl⟩,
    ⟨rfl, rfl, rfl, rfl, rfl⟩, ⟨rfl, rfl, rfl, rfl, rfl⟩,
    ⟨rfl, rfl, rfl, rfl, rfl⟩⟩

/-- C10: `build()` does not reject non-finite values as such: with
open=20, high=+∞, low=15, close=21, volume=+∞ every checked relation holds,
the build succeeds, and the accessors of the result return the infinite
values. -/
theorem build_accepts_infinity :
    (DataItemBuilder.mk (some (.finite 20)) (some .inf) (some (.finite 15))
      (some (.finite 21)) (some .inf)).build =
      Except.ok (DataItem.mk (.finite 20) .inf (.finite 15) (.finite 21)
        .inf) ∧
    (DataItem.mk (.finite 20) .inf (.finite 15) (.finite 21) .inf).high =
      .inf ∧
    (DataItem.mk (.finite 20) .inf (.finite 15) (.finite 21) .inf).volume =
      .inf :=
  ⟨by decide, rfl, rfl⟩

/-! ### Order independence of the chained setter calls (C5) -/

/-- One chained setter call of the Rust builder together with its
argument. -/
inductive SetterCall where
  | op (v : F64)
  | hi (v : F64)
  | lo (v : F64)
  | cl (v : F64)
  | vol (v : F64)
deriving DecidableEq, Repr

/-- Dispatch a recorded setter call to the corresponding builder setter. -/
def applySetter (b : DataItemBuilder) : SetterCall → DataItemBuilder
  | .op v => b.setOpen v
  | .hi v => b.setHigh v
  | .lo v => b.setLow v
  | .cl v => b.setClose v
  | .vol v => b.setVolume v

/-- The value a recorded call writes into the open slot, if any. -/
def SetterCall.openVal : SetterCall → Option F64
  | .op v => some v
  | _ => none

/-- The value a recorded call writes into the high slot, if any. -/
def SetterCall.highVal : SetterCall → Option F64
  | .hi v => some v
  | _ => none

/-- The value a recorded call writes into the low slot, if any. -/
def SetterCall.lowVal : SetterCall → Option F64
  | .lo v => some v
  | _ => none

/-- The value a recorded call writes into the close slot, if any. -/
def SetterCall.closeVal : SetterCall → Option F64
  | .cl v => some v
  | _ => none

/-- The value a recorded call writes into the volume slot, if any. -/
def SetterCall.volumeVal : SetterCall → Option F64
  | .vol v => some v
  | _ => none

/-- The content of a slot after a sequence of writes: the last write wins,
the initial content survives only when no write occurred. -/
def lastWrite (init : Option F64) (xs : List F64) : Option F64 :=
  xs.foldl (fun _ v => some v) init

theorem foldl_open_eq (L : List SetterCall) (b : DataItemBuilder) :
    (L.foldl applySetter b).open_ =
      lastWrite b.open_ (L.filterMap SetterCall.openVal) := by
  induction L generalizing b with
  | nil => rfl
  | cons s t ih =>
    cases s <;>
      simp [List.filterMap_cons, applySetter, DataItemBuilder.setOpen,
        DataItemBuilder.setHigh, DataItemBuilder.setLow,
        DataItemBuilder.setClose, DataItemBuilder.setVolume,
        SetterCall.openVal, lastWrite, ih]

theorem foldl_high_eq (L : List SetterCall) (b : DataItemBuilder) :
    (L.foldl applySetter b).high =
      lastWrite b.high (L.filterMap SetterCall.highVal) := by
  induction L generalizing b with
  | nil => rfl
  | cons s t ih =>
    cases s <;>
      simp [List.filterMap_cons, applySetter, DataItemBuilder.setOpen,
        DataItemBuilder.setHigh, DataItemBuilder.setLow,
        DataItemBuilder.setClose, DataItemBuilder.setVolume,
        SetterCall.highVal, lastWrite, ih]

theorem foldl_low_eq (L : List SetterCall) (b : DataItemBuilder) :
    (L.foldl applySetter b).low =
      lastWrite b.low (L.filterMap SetterCall.lowVal) := by
  induction L generalizing b with
  | nil => rfl
  | cons s t ih =>
    cases s <;>
      simp [List.filterMap_cons, applySetter, DataItemBuilder.setOpen,
        DataItemBuilder.setHigh, DataItemBuilder.setLow,
        DataItemBuilder.setClose, DataItemBuilder.setVolume,
        SetterCall.lowVal, lastWrite, ih]

theorem foldl_close_eq (L : List SetterCall) (b : DataItemBuilder) :
    (L.foldl applySetter b).close =
      lastWrite b.close (L.filterMap SetterCall.closeVal) := by
  induction L generalizing b with
  | nil => rfl
  | cons s t ih =>
    cases s <;>
      simp [List.filterMap_cons, applySetter, DataItemBuilder.setOpen,
        DataItemBuilder.setHigh, DataItemBuilder.setLow,
        DataItemBuilder.setClose, DataItemBuilder.setVolume,
        SetterCall.closeVal, lastWrite, ih]

theorem foldl_volume_eq (L : List SetterCall) (b : DataItemBuilder) :
    (L.foldl applySetter b).volume =
      lastWrite b.volume (L.filterMap SetterCall.volumeVal) := by
  induction L generalizing b with
  | nil => rfl
  | cons s t ih =>
    cases s <;>
      simp [List.filterMap_cons, applySetter, DataItemBuilder.setOpen,
        DataItemBuilder.setHigh, DataItemBuilder.setLow,
        DataItemBuilder.setClose, DataItemBuilder.setVolume,
        SetterCall.volumeVal, lastWrite, ih]

theorem builder_eq_of_slots (b1 b2 : DataItemBuilder)
    (ho : b1.open_ = b2.open_) (hh : b1.high = b2.high)
    (hl : b1.low = b2.low) (hc : b1.close = b2.close)
    (hv : b1.volume = b2.volume) : b1 = b2 := by
  obtain ⟨o1, h1, l1, c1, v1⟩ := b1
  obtain ⟨o2, h2, l2, c2, v2⟩ := b2
  simp_all

/-- Folding any permutation of the five distinct setter calls over a fresh
builder fills all five slots with the corresponding values. -/
theorem foldl_perm_canonical (o h l c v : F64) (L : List SetterCall)
    (hp : L.Perm [SetterCall.op o, SetterCall.hi h, SetterCall.lo l,
      SetterCall.cl c, SetterCall.vol v]) :
    L.foldl applySetter DataItemBuilder.new =
      DataItemBuilder.mk (some o) (some h) (some l) (some c) (some v) := by
  have ho : L.filterMap SetterCall.openVal = [o] :=
    List.perm_singleton.mp
      (by simpa [List.filterMap_cons, SetterCall.openVal, SetterCall.highVal]
        using hp.filterMap SetterCall.openVal)
  have hh : L.filterMap SetterCall.highVal = [h] :=
    List.perm_singleton.mp
      (by simpa [List.filterMap_cons, SetterCall.highVal]
        using hp.filterMap SetterCall.highVal)
  have hl : L.filterMap SetterCall.lowVal = [l] :=
    List.perm_singleton.mp
      (by simpa [List.filterMap_cons, SetterCall.lowVal]
        using hp.filterMap SetterCall.lowVal)
  have hc : L.filterMap SetterCall.closeVal = [c] :=
    List.perm_singleton.mp
      (by simpa [List.filterMap_cons, SetterCall.closeVal]
        using hp.filterMap SetterCall.closeVal)
  have hv : L.filterMap SetterCall.volumeVal = [v] :=
    List.perm_singleton.mp
      (by simpa [List.filterMap_cons, SetterCall.volumeVal]
        using hp.filterMap SetterCall.volumeVal)
  refine builder_eq_of_slots _ _ ?_ ?_ ?_ ?_ ?_
  · rw [foldl_open_eq, ho]; rfl
  · rw [foldl_high_eq, hh]; rfl
  · rw [foldl_low_eq, hl]; rfl
  · rw [foldl_close_eq, hc]; rfl
  · rw [foldl_volume_eq, hv]; rfl

/-- C5: applying the five setters to a fresh builder in any permutation of
call order yields the same `build()` outcome as any other permutation with
the same final values (in fact the same builder state). -/
theorem build_order_independent (o h l c v : F64)
    (L1 L2 : List SetterCall)
    (h1 : L1.Perm [SetterCall.op o, SetterCall.hi h, SetterCall.lo l,
      SetterCall.cl c, SetterCall.vol v])
    (h2 : L2.Perm [SetterCall.op o, SetterCall.hi h, SetterCall.lo l,
      SetterCall.cl c, SetterCall.vol v]) :
    (L1.foldl applySetter DataItemBuilder.new).build =
      (L2.foldl applySetter DataItemBuilder.new).build := by
  rw [foldl_perm_canonical o h l c v L1 h1,
    foldl_perm_canonical o h l c v L2 h2]

/-- Witness for C5: the canonical order versus the fully reversed order of
the five setter calls at open=20, high=25, low=15, close=21, volume=7500
give the same `build()` outcome. -/
theorem build_order_independent_witness :
    ([SetterCall.op (.finite 20), SetterCall.hi (.finite 25),
      SetterCall.lo (.finite 15), SetterCall.cl (.finite 21),
      SetterCall.vol (.finite 7500)].foldl applySetter
        DataItemBuilder.new).build =
    ([SetterCall.vol (.finite 7500), SetterCall.cl (.finite 21),
      SetterCall.lo (.finite 15), SetterCall.hi (.finite 25),
      SetterCall.op (.finite 20)].foldl applySetter
        DataItemBuilder.new).build :=
  build_order_independent (.finite 20) (.finite 25) (.finite 15)
    (.finite 21) (.finite 7500) _ _ (by decide) (by decide)
